import Mathlib

/-!
Verification of the BIOETHICARE 360 application (`app.py`) against its
natural-language specification.  The Python source is shallowly embedded:
pure functions become Lean functions, Python `dict`s with fixed insertion
order become ordered association lists or structures, Python `int` becomes
`Int`, fallible lookups become `Option`.  Strings are modelled with Lean
`String`, and the small fragment of Python string methods the source uses
(`str.strip`, `str.title`, `str.capitalize`, `str.replace`, `int(...)`)
is embedded for the ASCII inputs the program feeds them.
-/

/-! ## Python string and value primitives (from `app.py`, section 4) -/

/-- The ASCII whitespace characters stripped by Python `str.strip()`. -/
def esEspacioPy (c : Char) : Bool :=
  c = ' ' || c = '\t' || c = '\n' || c = '\r' || c = '\x0B' || c = '\x0C'

/-- Python `str.strip()`: remove leading and trailing whitespace. -/
def pyStrip (s : String) : String :=
  String.mk (((s.data.dropWhile esEspacioPy).reverse.dropWhile esEspacioPy).reverse)

/-- Python `str.capitalize()`: first character uppercased, the rest lowercased
(ASCII behaviour, which covers every string the program capitalizes). -/
def pyCapitalize (s : String) : String :=
  match s.data with
  | [] => ""
  | c :: cs => String.mk (c.toUpper :: cs.map Char.toLower)

/-- Worker for `pyTitle`: the boolean records whether the previous character
was alphabetic. -/
def pyTitleNucleo : List Char → Bool → List Char
  | [], _ => []
  | c :: cs, prevAlpha =>
    (if c.isAlpha then (if prevAlpha then c.toLower else c.toUpper) else c) ::
      pyTitleNucleo cs c.isAlpha

/-- Python `str.title()`: each alphabetic run starts uppercase, continues
lowercase (ASCII behaviour). -/
def pyTitle (s : String) : String :=
  String.mk (pyTitleNucleo s.data false)

/-- Python `str.replace(a, b)` specialised to the single use in the source:
`principio.replace('_', ' ')`. -/
def pyGuionBajoAEspacio (s : String) : String :=
  String.mk (s.data.map fun c => if c = '_' then ' ' else c)

/-- Digit tail of Python `int(str)`: digits with single underscores allowed
between digits (Python 3 numeric literal rule). -/
def leerDigitos : List Char → Nat → Option Nat
  | [], acc => some acc
  | '_' :: c :: cs, acc =>
    if c.isDigit then leerDigitos cs (acc * 10 + (c.toNat - 48)) else Option.none
  | '_' :: [], _ => Option.none
  | c :: cs, acc =>
    if c.isDigit then leerDigitos cs (acc * 10 + (c.toNat - 48)) else Option.none

/-- Python `int(str)`: strip whitespace, optional sign, then digits
(with single underscores between digits); `ValueError` becomes `none`. -/
def pyToInt (s : String) : Option Int :=
  let t := ((s.data.dropWhile esEspacioPy).reverse.dropWhile esEspacioPy).reverse
  match t with
  | '-' :: c :: cs =>
    if c.isDigit then (leerDigitos cs (c.toNat - 48)).map (fun n => -(n : Int))
    else Option.none
  | '+' :: c :: cs =>
    if c.isDigit then (leerDigitos cs (c.toNat - 48)).map (fun n => (n : Int))
    else Option.none
  | c :: cs =>
    if c.isDigit then (leerDigitos cs (c.toNat - 48)).map (fun n => (n : Int))
    else Option.none
  | [] => Option.none

/-- A dynamically-typed Python value as fed to the utility functions:
`None`, an `int`, or a `str`. -/
inductive PyValue where
  | none
  | int (n : Int)
  | str (s : String)
deriving DecidableEq, Repr

/-- `safe_int` from `app.py`: `None` and the empty string give the default,
a Python `int` is returned unchanged, a string is parsed with `int(...)`
and parse failure gives the default.  Total, so it never raises. -/
def safe_int (value : PyValue) (default : Int) : Int :=
  match value with
  | PyValue.none => default
  | PyValue.int n => n
  | PyValue.str s => if s = "" then default else (pyToInt s).getD default

/-- `safe_str` from `app.py`: `None` gives the default, anything else is
converted with `str(...)` and stripped. -/
def safe_str (value : PyValue) (default : String) : String :=
  match value with
  | PyValue.none => default
  | PyValue.int n => pyStrip (toString n)
  | PyValue.str s => pyStrip s

/-! ## Data model: principle scores and perspectives (`CasoBioetico.perspectivas`) -/

/-- The four principle scores of one stakeholder, in the fixed insertion
order of `_extract_perspective`. -/
structure PrincipleScores where
  autonomia : Int
  beneficencia : Int
  no_maleficencia : Int
  justicia : Int
deriving DecidableEq, Repr

/-- Python `valores.values()` in insertion order. -/
def PrincipleScores.values (v : PrincipleScores) : List Int :=
  [v.autonomia, v.beneficencia, v.no_maleficencia, v.justicia]

/-- Python `valores.items()` in insertion order. -/
def PrincipleScores.items (v : PrincipleScores) : List (String × Int) :=
  [("autonomia", v.autonomia), ("beneficencia", v.beneficencia),
   ("no_maleficencia", v.no_maleficencia), ("justicia", v.justicia)]

/-- Python `sum(valores.values())`. -/
def PrincipleScores.total (v : PrincipleScores) : Int :=
  v.autonomia + v.beneficencia + v.no_maleficencia + v.justicia

/-- Python `max(valores.values())`. -/
def PrincipleScores.maxVal (v : PrincipleScores) : Int :=
  max v.autonomia (max v.beneficencia (max v.no_maleficencia v.justicia))

/-- Python `min(valores.values())`. -/
def PrincipleScores.minVal (v : PrincipleScores) : Int :=
  min v.autonomia (min v.beneficencia (min v.no_maleficencia v.justicia))

/-- The all-zero score record. -/
def cerosScores : PrincipleScores := ⟨0, 0, 0, 0⟩

/-- The `caso.perspectivas` dict built by `CasoBioetico.__init__`: exactly the
three stakeholders, in insertion order `medico`, `familia`, `comite`. -/
structure Perspectivas where
  medico : PrincipleScores
  familia : PrincipleScores
  comite : PrincipleScores
deriving DecidableEq, Repr

/-- The perspectives dict as an ordered association list, i.e. Python
`caso.perspectivas.items()` in insertion order. -/
def Perspectivas.items (p : Perspectivas) : List (String × PrincipleScores) :=
  [("medico", p.medico), ("familia", p.familia), ("comite", p.comite)]

/-! ## Bias scoring engine: `verificar_sesgo_etico` (`app.py` lines 75-109) -/

/-- Rule 1 warning text (perspective omitted), from `app.py` line 81. -/
def advPerspectivaOmitida (nombre : String) : String :=
  "**Perspectiva Omitida:** La perspectiva de \x27" ++ nombre ++
    "\x27 no asignó puntuación a ningún principio."

/-- Rule 1 recommendation text, from `app.py` line 82. -/
def recPerspectivaOmitida (nombre : String) : String :=
  "Se recomienda verificar si la ponderación de \x27" ++ nombre ++
    "\x27 fue omitida accidentalmente para asegurar una deliberación completa."

/-- Rule 2 warning text (principle omitted), from `app.py` line 86. -/
def advPrincipioOmitido (nombre principio : String) : String :=
  "**Principio Omitido en \x27" ++ pyTitle nombre ++ "\x27:** El principio de \x27" ++
    pyCapitalize (pyGuionBajoAEspacio principio) ++ "\x27 tiene un valor de 0."

/-- Rule 2 recommendation text, from `app.py` line 87. -/
def recPrincipioOmitido (nombre principio : String) : String :=
  "Evaluar si la omisión del principio de \x27" ++
    pyCapitalize (pyGuionBajoAEspacio principio) ++
    "\x27 en la perspectiva de \x27" ++ pyTitle nombre ++
    "\x27 es intencional y justificada."

/-- Rule 3 warning text (high internal imbalance), from `app.py` line 92. -/
def advDesequilibrioInterno (nombre : String) (max_diff : Int) : String :=
  "**Alto Desequilibrio Interno:** En la perspectiva de \x27" ++ pyTitle nombre ++
    "\x27, existe un alto desequilibrio entre los principios (diferencia de " ++
    toString max_diff ++ " puntos)."

/-- Rule 3 recommendation text, from `app.py` line 93. -/
def recDesequilibrioInterno : String :=
  "Se sugiere revisar si la alta disparidad en la ponderación de esta perspectiva está suficientemente justificada o si requiere una deliberación más balanceada."

/-- Rule 4 warning text (high external imbalance), from `app.py` line 100. -/
def advDesequilibrioExterno (maxP minP : String) : String :=
  "**Alto Desequilibrio Externo:** La perspectiva de \x27" ++ pyTitle maxP ++
    "\x27 tiene un peso total significativamente mayor que la de \x27" ++
    pyTitle minP ++ "\x27."

/-- Rule 4 recommendation text, from `app.py` line 101. -/
def recDesequilibrioExterno : String :=
  "Analizar si esta dominancia de una perspectiva sobre otra es adecuada para el caso o si es necesario re-equilibrar las ponderaciones para una decisión más equitativa."

/-- One iteration of the `for nombre, valores in caso.perspectivas.items()`
loop of `verificar_sesgo_etico`: the warnings, recommendations and severity
points contributed by a single stakeholder (rules 1, 2 and 3). -/
def avisosPerspectiva (nombre : String) (valores : PrincipleScores) :
    List String × List String × Int :=
  let omision :=
    if valores.total = 0 then
      ([advPerspectivaOmitida nombre], [recPerspectivaOmitida nombre], (3 : Int))
    else ([], [], 0)
  let ceros := valores.items.filter (fun it => it.2 = 0)
  let interno :=
    if 0 < valores.total then
      let max_diff := valores.maxVal - valores.minVal
      if 4 ≤ max_diff then
        ([advDesequilibrioInterno nombre max_diff], [recDesequilibrioInterno], (2 : Int))
      else ([], [], 0)
    else ([], [], 0)
  (omision.1 ++ ceros.map (fun it => advPrincipioOmitido nombre it.1) ++ interno.1,
   omision.2.1 ++ ceros.map (fun it => recPrincipioOmitido nombre it.1) ++ interno.2.1,
   omision.2.2 + (ceros.length : Int) + interno.2.2)

/-- The whole per-stakeholder loop of `verificar_sesgo_etico`, emitting
warnings and recommendations in iteration order and accumulating points. -/
def porPerspectivas : List (String × PrincipleScores) → List String × List String × Int
  | [] => ([], [], 0)
  | p :: resto =>
    let r := avisosPerspectiva p.1 p.2
    let t := porPerspectivas resto
    (r.1 ++ t.1, r.2.1 ++ t.2.1, r.2.2 + t.2.2)

/-- Python `puntajes_totales = {nombre: sum(valores.values()) ...}` as an
ordered association list. -/
def puntajesTotales (perspectivas : List (String × PrincipleScores)) :
    List (String × Int) :=
  perspectivas.map (fun p => (p.1, p.2.total))

/-- Python `max(d, key=d.get)` over a nonempty dict given as initial entry
plus remaining entries: keeps the earliest entry on ties. -/
def pyMaxPor (ini : String × Int) (l : List (String × Int)) : String × Int :=
  l.foldl (fun best x => if best.2 < x.2 then x else best) ini

/-- Python `min(d, key=d.get)` over a nonempty dict: earliest entry on ties. -/
def pyMinPor (ini : String × Int) (l : List (String × Int)) : String × Int :=
  l.foldl (fun best x => if x.2 < best.2 then x else best) ini

/-- Rule 4 of `verificar_sesgo_etico` (`app.py` lines 95-102): with at least
two stakeholders, compare the extreme stakeholder totals. -/
def externo (perspectivas : List (String × PrincipleScores)) :
    List String × List String × Int :=
  match puntajesTotales perspectivas with
  | [] => ([], [], 0)
  | [_] => ([], [], 0)
  | t1 :: t2 :: resto =>
    let maxP := pyMaxPor t1 (t2 :: resto)
    let minP := pyMinPor t1 (t2 :: resto)
    if 8 ≤ maxP.2 - minP.2 then
      ([advDesequilibrioExterno maxP.1 minP.1], [recDesequilibrioExterno], (2 : Int))
    else ([], [], 0)

/-- Warnings, recommendations and accumulated severity points of
`verificar_sesgo_etico`, before the final threshold mapping. -/
def resultadoSesgo (perspectivas : List (String × PrincipleScores)) :
    List String × List String × Int :=
  let pp := porPerspectivas perspectivas
  let ex := externo perspectivas
  (pp.1 ++ ex.1, pp.2.1 ++ ex.2.1, pp.2.2 + ex.2.2)

/-- The severity points accumulated by `verificar_sesgo_etico`. -/
def puntosDe (perspectivas : List (String × PrincipleScores)) : Int :=
  (resultadoSesgo perspectivas).2.2

/-- The severity thresholds at the end of `verificar_sesgo_etico`
(`app.py` lines 103-108). -/
def severidadDe (puntos : Int) : String :=
  if 5 ≤ puntos then "Crítico" else if 2 ≤ puntos then "Moderado" else "Bajo"

/-- `verificar_sesgo_etico` from `app.py` lines 75-109, over the ordered
perspectives dict: returns `(advertencias, recomendaciones, severidad)`. -/
def verificar_sesgo_etico (perspectivas : List (String × PrincipleScores)) :
    List String × List String × String :=
  let r := resultadoSesgo perspectivas
  (r.1, r.2.1, severidadDe r.2.2)

/-- The stakeholder returned by `max(puntajes_totales, key=...)` together
with its total; meaningful (and used) only when at least one stakeholder is
present, matching the Python precondition of `max` on a nonempty dict. -/
def parMax (perspectivas : List (String × PrincipleScores)) : String × Int :=
  match puntajesTotales perspectivas with
  | [] => ("", 0)
  | t :: ts => pyMaxPor t ts

/-- The stakeholder returned by `min(puntajes_totales, key=...)` with its
total; meaningful only when at least one stakeholder is present. -/
def parMin (perspectivas : List (String × PrincipleScores)) : String × Int :=
  match puntajesTotales perspectivas with
  | [] => ("", 0)
  | t :: ts => pyMinPor t ts

/-- `tieneEtiqueta tag s` says that string `s` starts with `tag`: used to
classify the emitted warnings by which rule produced them. -/
def tieneEtiqueta (etiqueta s : String) : Bool :=
  decide (s.data.take etiqueta.data.length = etiqueta.data)

/-- Tag of rule 1 warnings. -/
def etiquetaPerspectivaOmitida : String := "**Perspectiva Omitida:**"

/-- Tag of rule 2 warnings. -/
def etiquetaPrincipioOmitido : String := "**Principio Omitido en"

/-- Tag of rule 3 warnings. -/
def etiquetaInterno : String := "**Alto Desequilibrio Interno:**"

/-- Tag of rule 4 warnings. -/
def etiquetaExterno : String := "**Alto Desequilibrio Externo:**"

/-! ## Case model: `CasoBioetico` (`app.py` lines 195-220) -/

/-- A Python keyword-argument dictionary: `Option.none` models an absent key
(so that `kwargs.get(k)` and `kwargs.get(k, default)` can be told apart). -/
def Kwargs : Type := String → Option PyValue

/-- Python `kwargs.get(k)`: `None` when the key is absent. -/
def pyGet (kwargs : Kwargs) (k : String) : PyValue :=
  (kwargs k).getD PyValue.none

/-- Python `kwargs.get(k, d)`: `d` when the key is absent. -/
def pyGetD (kwargs : Kwargs) (k : String) (d : PyValue) : PyValue :=
  (kwargs k).getD d

/-- The structured case record built by `CasoBioetico.__init__`. -/
structure CasoBioetico where
  nombre_paciente : String
  historia_clinica : String
  edad : Int
  genero : String
  nombre_analista : String
  dilema_etico : String
  descripcion_caso : String
  antecedentes_culturales : String
  condicion : String
  semanas_gestacion : Int
  puntos_clave_ia : String
  ai_clinical_analysis_summary : String
  perspectivas : Perspectivas
deriving DecidableEq, Repr

/-- `CasoBioetico._extract_perspective` (`app.py` lines 214-220): the four
principle keys are always present, each defaulted to 0 by `safe_int`. -/
def extractPerspective (kwargs : Kwargs) (prefijo : String) : PrincipleScores :=
  { autonomia := safe_int (pyGet kwargs ("nivel_autonomia_" ++ prefijo)) 0
    beneficencia := safe_int (pyGet kwargs ("nivel_beneficencia_" ++ prefijo)) 0
    no_maleficencia := safe_int (pyGet kwargs ("nivel_no_maleficencia_" ++ prefijo)) 0
    justicia := safe_int (pyGet kwargs ("nivel_justicia_" ++ prefijo)) 0 }

/-- `CasoBioetico.__init__` (`app.py` lines 196-213).  `dilemasOpciones` is
the list of dilemma names loaded at startup and `tsAhora` is
`int(datetime.now().timestamp())`, both ambient inputs of the constructor. -/
def mkCasoBioetico (dilemasOpciones : List String) (tsAhora : Int)
    (kwargs : Kwargs) : CasoBioetico :=
  { nombre_paciente := safe_str (pyGet kwargs "nombre_paciente") "N/A"
    historia_clinica :=
      safe_str (pyGet kwargs "historia_clinica") ("caso_" ++ toString tsAhora)
    edad := safe_int (pyGet kwargs "edad") 0
    genero := safe_str (pyGet kwargs "genero") "N/A"
    nombre_analista := safe_str (pyGet kwargs "nombre_analista") "N/A"
    dilema_etico :=
      safe_str (pyGetD kwargs "dilema_etico" (PyValue.str (dilemasOpciones.headD ""))) ""
    descripcion_caso := safe_str (pyGet kwargs "descripcion_caso") ""
    antecedentes_culturales := safe_str (pyGet kwargs "antecedentes_culturales") ""
    condicion := safe_str (pyGetD kwargs "condicion" (PyValue.str "Estable")) ""
    semanas_gestacion := safe_int (pyGet kwargs "semanas_gestacion") 0
    puntos_clave_ia := safe_str (pyGet kwargs "puntos_clave_ia") ""
    ai_clinical_analysis_summary :=
      safe_str (pyGet kwargs "ai_clinical_analysis_summary") ""
    perspectivas :=
      { medico := extractPerspective kwargs "medico"
        familia := extractPerspective kwargs "familia"
        comite := extractPerspective kwargs "comite" } }

/-- The twelve keyword-argument keys feeding the perspectives map. -/
def clavesPerspectiva : List String :=
  ["nivel_autonomia_medico", "nivel_beneficencia_medico",
   "nivel_no_maleficencia_medico", "nivel_justicia_medico",
   "nivel_autonomia_familia", "nivel_beneficencia_familia",
   "nivel_no_maleficencia_familia", "nivel_justicia_familia",
   "nivel_autonomia_comite", "nivel_beneficencia_comite",
   "nivel_no_maleficencia_comite", "nivel_justicia_comite"]

/-! ## Report assembler: `generar_reporte_completo` (`app.py` lines 223-237) -/

/-- One chat turn, `{"role": ..., "content": ...}`. -/
structure ChatMessage where
  role : String
  content : String
deriving DecidableEq, Repr

/-- The derived ethical assessment stored in the report. -/
structure AnalisisEtico where
  advertencias : List String
  recomendaciones : List String
  severidad : String
deriving DecidableEq, Repr

/-- The chart-specification JSON blobs handed to the assembler; `Option` on
each field models the chart builders' null-on-failure policy. -/
structure ChartJsons where
  radar_comparativo_json : Option String
  stats_chart_json : Option String
  equilibrio_chart_json : Option String
deriving DecidableEq, Repr

/-- The report dict built by `generar_reporte_completo`; each field models
one key of the Python dict, in order:
`ID del Caso`, `Fecha Análisis`, `Analista`, `Resumen del Paciente`,
`Dilema Ético Principal (Seleccionado)`, `Dilema Sugerido por IA`,
`Descripción Detallada del Caso`, `Contexto Sociocultural y Familiar`,
`Puntos Clave para Deliberación IA`, `Análisis IA de Historia Clínica`,
`AnalisisMultiperspectiva`, `AnalisisEtico`, `Análisis Deliberativo (IA)`,
`Historial del Chat de Deliberación`, `radar_chart_json`,
`stats_chart_json`, `equilibrio_chart_json`. -/
structure Reporte where
  idDelCaso : String
  fechaAnalisis : String
  analista : String
  resumenPaciente : String
  dilemaEticoPrincipal : String
  dilemaSugeridoIA : String
  descripcionDetallada : String
  contextoSociocultural : String
  puntosClaveIA : String
  analisisIAHistoriaClinica : String
  analisisMultiperspectiva : Perspectivas
  analisisEtico : AnalisisEtico
  analisisDeliberativoIA : String
  historialChat : List ChatMessage
  radar_chart_json : Option String
  stats_chart_json : Option String
  equilibrio_chart_json : Option String
deriving DecidableEq, Repr

/-- The patient-summary line synthesized by `generar_reporte_completo`
(`app.py` lines 224-226), with the neonatal clause appended exactly when
`semanas_gestacion > 0`. -/
def resumenPacienteDe (caso : CasoBioetico) : String :=
  let base := "Paciente " ++ caso.nombre_paciente ++ ", " ++ toString caso.edad ++
    " años, género " ++ caso.genero ++ ", condición " ++ caso.condicion ++ "."
  if 0 < caso.semanas_gestacion then
    base ++ " Neonato de " ++ toString caso.semanas_gestacion ++ " sem."
  else base

/-- `generar_reporte_completo` (`app.py` lines 223-237).  `ahora` is the
`datetime.now().strftime(...)` timestamp, the only ambient input; the
Python `dilema_sugerido or ""` becomes `Option.getD` (both map a missing or
empty suggestion to the empty string). -/
def generar_reporte_completo (ahora : String) (caso : CasoBioetico)
    (dilema_sugerido : Option String) (chat_history : List ChatMessage)
    (chart_jsons : ChartJsons) (ethical_analysis : AnalisisEtico) : Reporte :=
  { idDelCaso := caso.historia_clinica
    fechaAnalisis := ahora
    analista := caso.nombre_analista
    resumenPaciente := resumenPacienteDe caso
    dilemaEticoPrincipal := caso.dilema_etico
    dilemaSugeridoIA := dilema_sugerido.getD ""
    descripcionDetallada := caso.descripcion_caso
    contextoSociocultural := caso.antecedentes_culturales
    puntosClaveIA := caso.puntos_clave_ia
    analisisIAHistoriaClinica := caso.ai_clinical_analysis_summary
    analisisMultiperspectiva := caso.perspectivas
    analisisEtico := ethical_analysis
    analisisDeliberativoIA := ""
    historialChat := chat_history
    radar_chart_json := chart_jsons.radar_comparativo_json
    stats_chart_json := chart_jsons.stats_chart_json
    equilibrio_chart_json := chart_jsons.equilibrio_chart_json }

/-! ## Consent text generator: `generar_texto_consentimiento` (`app.py` lines 303-345) -/

/-- One entry of the dilemma knowledge base: the four optional lists looked
up with `dilema_info.get(...)`; an absent list models an absent JSON key. -/
structure DilemaInfo where
  riesgos : Option (List String)
  beneficios : Option (List String)
  alternativas : Option (List String)
  normativas : Option (List String)
deriving DecidableEq, Repr

/-- Python `dilemas_data.get(nombre)` over the knowledge-base dict given as
an ordered association list with distinct keys. -/
def buscarDilema (dilemasData : List (String × DilemaInfo)) (nombre : String) :
    Option DilemaInfo :=
  (dilemasData.find? (fun p => p.1 = nombre)).map (fun p => p.2)

/-- The `DilemaInfo` with every key absent, i.e. the `{}` default of
`dilemas_data.get(caso.dilema_etico, {})`. -/
def dilemaVacio : DilemaInfo :=
  ⟨Option.none, Option.none, Option.none, Option.none⟩

/-- Python `"\n".join`, written by direct recursion. -/
def unirCon (sep : String) : List String → String
  | [] => ""
  | [l] => l
  | l :: l2 :: ls => l ++ sep ++ unirCon sep (l2 :: ls)

/-- Splitting a character list at every newline (worker for
`dividirLineas`); the accumulator holds the current line reversed. -/
def dividirLineasNucleo : List Char → List Char → List String
  | [], acc => [String.mk acc.reverse]
  | c :: cs, acc =>
    if c = '\n' then String.mk acc.reverse :: dividirLineasNucleo cs []
    else dividirLineasNucleo cs (c :: acc)

/-- The lines of a string, i.e. Python `texto.split('\n')`. -/
def dividirLineas (s : String) : List String :=
  dividirLineasNucleo s.data []

/-- The 66-dash separator line of the consent template. -/
def lineaSeparadora : String :=
  "------------------------------------------------------------------"

/-- A bullet line `- x` as produced by the list comprehensions of
`generar_texto_consentimiento`. -/
def vineta (x : String) : String := "- " ++ x

/-- The consent document of `generar_texto_consentimiento` as its list of
lines, with the four already-defaulted bullet lists spliced in at their
template positions.  `hoy` is `datetime.now().strftime("%Y-%m-%d")`.
Joining these lines with newlines reproduces the Python f-string template
of `app.py` lines 309-344 exactly (the template starts and ends with a
newline, hence the leading and trailing empty line). -/
def lineasCabecera (hoy : String) (caso : CasoBioetico) : List String :=
  ["",
   "CONSENTIMIENTO/ASENTIMIENTO INFORMADO (BIOETHICARE 360)",
   "Fecha: " ++ hoy,
   "ID del Caso: " ++ caso.historia_clinica,
   lineaSeparadora,
   "DATOS DEL PACIENTE",
   lineaSeparadora,
   "Nombre: " ++ caso.nombre_paciente,
   "Edad: " ++ (toString caso.edad ++ " años"),
   "Género: " ++ caso.genero,
   "Dilema Ético Principal: " ++ caso.dilema_etico,
   lineaSeparadora,
   "INFORMACIÓN SOBRE LA DECISIÓN",
   lineaSeparadora,
   "En el contexto de su situación clínica, se ha identificado un dilema ético principal relacionado con \"" ++ (caso.dilema_etico ++ "\". A continuación, se presenta la información relevante para que usted (o su representante) pueda tomar una decisión informada."),
   "1. RIESGOS POTENCIALES:"]

/-- The fixed signature-block tail of the consent template
(`app.py` lines 333-344). -/
def lineasPie (caso : CasoBioetico) : List String :=
  [lineaSeparadora,
   "DECLARACIÓN Y FIRMA",
   lineaSeparadora,
   "Declaro que he leído (o me han leído) y comprendido la información anterior. He tenido la oportunidad de hacer preguntas y todas han sido respondidas a mi satisfacción.",
   "Entiendo que mi decisión es voluntaria y que puedo retirarla en cualquier momento sin que ello afecte la calidad de mi atención médica.",
   "Firma del Paciente/Tutor Legal: _________________________",
   "Nombre: _________________________",
   "Fecha: _________________________",
   "Firma del Profesional de la Salud: _________________________",
   "Nombre: " ++ caso.nombre_analista,
   "Fecha: _________________________",
   ""]

/-- The consent document as its full list of lines. -/
def lineasConsentimiento (hoy : String) (caso : CasoBioetico)
    (riesgos beneficios alternativas normativas : List String) : List String :=
  lineasCabecera hoy caso ++
  riesgos.map vineta ++
  ["2. BENEFICIOS ESPERADOS:"] ++
  beneficios.map vineta ++
  ["3. ALTERNATIVAS DISPONIBLES:"] ++
  alternativas.map vineta ++
  ["4. MARCO NORMATIVO Y ÉTICO:",
   "Esta deliberación se enmarca en las siguientes normativas y principios:"] ++
  normativas.map vineta ++
  lineasPie caso

/-- The consent text for explicitly given (already defaulted) bullet lists. -/
def textoConsentimientoDe (hoy : String) (caso : CasoBioetico)
    (riesgos beneficios alternativas normativas : List String) : String :=
  unirCon "\n" (lineasConsentimiento hoy caso riesgos beneficios alternativas normativas)

/-- `generar_texto_consentimiento` (`app.py` lines 303-345): look the case's
dilemma up in the knowledge base (an absent category degrades to the empty
entry), default each absent list to its single placeholder bullet, and fill
the fixed legal template.  Total, so it never raises. -/
def generar_texto_consentimiento (dilemasData : List (String × DilemaInfo))
    (hoy : String) (caso : CasoBioetico) : String :=
  let info := (buscarDilema dilemasData caso.dilema_etico).getD dilemaVacio
  textoConsentimientoDe hoy caso
    (info.riesgos.getD ["No especificados"])
    (info.beneficios.getD ["No especificados"])
    (info.alternativas.getD ["No especificadas"])
    (info.normativas.getD ["No especificadas"])

/-- How many lines of `texto` are exactly the bullet line `- r`: the formal
reading of "the text contains the bullet `r` exactly once" is
`cuentaVineta r texto = 1`. -/
def cuentaVineta (r texto : String) : Nat :=
  (dividirLineas texto).countP (fun l => decide (l = vineta r))

/-- Modelled from the spec: the knowledge base `dilemas.json` is loaded at
startup but the file is not part of the repository source, so its contents
are modelled from the spec, section 6: "a static mapping from
dilemma-category name to risks, benefits, alternatives, regulations (all
sequences of strings) ... missing entries degrade to placeholder text".
One category configures all four lists, one configures only the regulatory
list (exercising the per-list placeholder defaulting). -/
def dilemaCompletoSpec : DilemaInfo :=
  { riesgos := some ["Riesgo de infección", "Riesgo de sangrado"]
    beneficios := some ["Mejoría del pronóstico"]
    alternativas := some ["Tratamiento conservador"]
    normativas := some ["Ley 23 de 1981"] }

/-- Modelled from the spec: a knowledge-base entry configuring only the
regulatory list, exercising the per-list placeholder defaulting. -/
def dilemaParcialSpec : DilemaInfo :=
  { riesgos := Option.none
    beneficios := Option.none
    alternativas := Option.none
    normativas := some ["Resolución 8430 de 1993"] }

/-- Modelled from the spec: the static knowledge base mapping
dilemma-category names to their entries. -/
def dilemasDataSpec : List (String × DilemaInfo) :=
  [("Limitación del esfuerzo terapéutico", dilemaCompletoSpec),
   ("Rechazo de tratamiento", dilemaParcialSpec)]

/-! ## Form submission handler (`display_main_app`, `app.py` lines 639-669) -/

/-- The slice of `st.session_state` the submission handler touches. -/
structure Sesion where
  reporte : Option Reporte
  case_id : Option String
  chat_history : List ChatMessage
  consentimiento_texto : Option String
deriving DecidableEq, Repr

/-- One document written to the per-user store
(`db.collection('usuarios').document(uid).collection('casos')...set(...)`). -/
structure EscrituraFirestore where
  usuario : String
  casoId : String
  reporte : Reporte
deriving DecidableEq, Repr

/-- The raw values of the case form (`app.py` lines 601-637): text fields
are strings, `number_input` and the sliders deliver Python ints. -/
structure DatosFormulario where
  nombre_paciente : String
  edad : Int
  genero : String
  semanas_gestacion : Int
  historia_clinica : String
  condicion : String
  dilema_etico : String
  descripcion_caso : String
  antecedentes_culturales : String
  puntos_clave_ia : String
  medico : PrincipleScores
  familia : PrincipleScores
  comite : PrincipleScores
  generar_consentimiento : Bool
deriving DecidableEq, Repr

/-- The `form_data` keyword dictionary built on submission
(`app.py` line 645). -/
def kwargsDe (form : DatosFormulario) (analista_email : String) : Kwargs :=
  fun k =>
    if k = "nombre_paciente" then some (PyValue.str form.nombre_paciente)
    else if k = "historia_clinica" then some (PyValue.str form.historia_clinica)
    else if k = "edad" then some (PyValue.int form.edad)
    else if k = "genero" then some (PyValue.str form.genero)
    else if k = "nombre_analista" then some (PyValue.str analista_email)
    else if k = "dilema_etico" then some (PyValue.str form.dilema_etico)
    else if k = "descripcion_caso" then some (PyValue.str form.descripcion_caso)
    else if k = "antecedentes_culturales" then
      some (PyValue.str form.antecedentes_culturales)
    else if k = "condicion" then some (PyValue.str form.condicion)
    else if k = "semanas_gestacion" then some (PyValue.int form.semanas_gestacion)
    else if k = "puntos_clave_ia" then some (PyValue.str form.puntos_clave_ia)
    else if k = "nivel_autonomia_medico" then some (PyValue.int form.medico.autonomia)
    else if k = "nivel_beneficencia_medico" then
      some (PyValue.int form.medico.beneficencia)
    else if k = "nivel_no_maleficencia_medico" then
      some (PyValue.int form.medico.no_maleficencia)
    else if k = "nivel_justicia_medico" then some (PyValue.int form.medico.justicia)
    else if k = "nivel_autonomia_familia" then some (PyValue.int form.familia.autonomia)
    else if k = "nivel_beneficencia_familia" then
      some (PyValue.int form.familia.beneficencia)
    else if k = "nivel_no_maleficencia_familia" then
      some (PyValue.int form.familia.no_maleficencia)
    else if k = "nivel_justicia_familia" then some (PyValue.int form.familia.justicia)
    else if k = "nivel_autonomia_comite" then some (PyValue.int form.comite.autonomia)
    else if k = "nivel_beneficencia_comite" then
      some (PyValue.int form.comite.beneficencia)
    else if k = "nivel_no_maleficencia_comite" then
      some (PyValue.int form.comite.no_maleficencia)
    else if k = "nivel_justicia_comite" then some (PyValue.int form.comite.justicia)
    else Option.none

/-- The submission branch of `display_main_app` (`app.py` lines 639-669).
A blank case id aborts with the validation error and leaves the session
untouched with no store writes; otherwise the case is built, scored,
assembled into the report, stored in the session and persisted (the store
write happens only when a user id is available).  Ambient inputs: the
knowledge base, the two timestamps, the analyst email, the user id, the AI
dilemma suggestion and the chart JSON blobs (the chart builders are
external collaborators producing opaque JSON).  Returns the new session,
the store writes and the user-visible error messages. -/
def manejarEnvio (dilemasData : List (String × DilemaInfo)) (ahora hoy : String)
    (tsAhora : Int) (analista_email : String) (user_uid : Option String)
    (dilema_sugerido : Option String) (chart_jsons : ChartJsons)
    (sesion : Sesion) (form : DatosFormulario) :
    Sesion × List EscrituraFirestore × List String :=
  if pyStrip form.historia_clinica = "" then
    (sesion, [],
     ["El campo \x27Nº Historia Clínica / ID del Caso\x27 es obligatorio."])
  else
    let caso := mkCasoBioetico (dilemasData.map (fun p => p.1)) tsAhora
      (kwargsDe form analista_email)
    let r := verificar_sesgo_etico caso.perspectivas.items
    let analisis : AnalisisEtico := ⟨r.1, r.2.1, r.2.2⟩
    let reporte := generar_reporte_completo ahora caso dilema_sugerido []
      chart_jsons analisis
    let sesionNueva : Sesion :=
      { reporte := some reporte
        case_id := some caso.historia_clinica
        chat_history := []
        consentimiento_texto :=
          if form.generar_consentimiento then
            some (generar_texto_consentimiento dilemasData hoy caso)
          else Option.none }
    match user_uid with
    | some uid => (sesionNueva, [⟨uid, caso.historia_clinica, reporte⟩], [])
    | Option.none =>
      (sesionNueva, [], ["No se pudo obtener el ID del usuario para guardar el caso."])

/-! ## Concrete inputs used by the spec's testable properties -/

/-- The perspectives map in which every stakeholder scored every principle 0. -/
def cerosItems : List (String × PrincipleScores) :=
  Perspectivas.items ⟨cerosScores, cerosScores, cerosScores⟩

/-- The balanced perspectives `{medico 3333, familia 3333, comite 3333}`. -/
def equilibradoItems : List (String × PrincipleScores) :=
  Perspectivas.items ⟨⟨3, 3, 3, 3⟩, ⟨3, 3, 3, 3⟩, ⟨3, 3, 3, 3⟩⟩

/-- The dominance example `{medico 5555, familia 0000, comite 3333}`. -/
def dominanciaItems : List (String × PrincipleScores) :=
  Perspectivas.items ⟨⟨5, 5, 5, 5⟩, ⟨0, 0, 0, 0⟩, ⟨3, 3, 3, 3⟩⟩

/-- A well-formed concrete case selecting the fully-configured dilemma. -/
def casoLimpio : CasoBioetico :=
  { nombre_paciente := "Ana Pérez"
    historia_clinica := "HC-001"
    edad := 44
    genero := "Femenino"
    nombre_analista := "doctora@example.com"
    dilema_etico := "Limitación del esfuerzo terapéutico"
    descripcion_caso := "Paciente con falla multiorgánica."
    antecedentes_culturales := ""
    condicion := "Crítico"
    semanas_gestacion := 0
    puntos_clave_ia := ""
    ai_clinical_analysis_summary := ""
    perspectivas := ⟨⟨3, 3, 3, 3⟩, ⟨3, 3, 3, 3⟩, ⟨3, 3, 3, 3⟩⟩ }

/-- The same case with a patient name that smuggles a newline and a bullet
line into the consent template. -/
def casoInyectado : CasoBioetico :=
  { casoLimpio with nombre_paciente := "X\n- Riesgo de infección" }

/-- A neonatal variant of the concrete case. -/
def casoNeonato : CasoBioetico :=
  { casoLimpio with semanas_gestacion := 32, condicion := "Neonato" }

/-- An empty assessment, for instantiating the report assembler. -/
def analisisVacio : AnalisisEtico := ⟨[], [], "Bajo"⟩

/-- Absent chart specifications, for instantiating the report assembler. -/
def chartsVacios : ChartJsons := ⟨Option.none, Option.none, Option.none⟩

/-- A submitted form whose case id is blank (whitespace only). -/
def formEnBlanco : DatosFormulario :=
  { nombre_paciente := "Ana Pérez"
    edad := 44
    genero := "Femenino"
    semanas_gestacion := 0
    historia_clinica := "   "
    condicion := "Estable"
    dilema_etico := "Limitación del esfuerzo terapéutico"
    descripcion_caso := ""
    antecedentes_culturales := ""
    puntos_clave_ia := ""
    medico := ⟨3, 3, 3, 3⟩
    familia := ⟨3, 3, 3, 3⟩
    comite := ⟨3, 3, 3, 3⟩
    generar_consentimiento := false }

/-- The case's interpolated text fields contain no newline (the condition
under which the consent template keeps every interpolation on its own
line). -/
def casoSinSaltos (caso : CasoBioetico) : Prop :=
  '\n' ∉ caso.nombre_paciente.data ∧ '\n' ∉ caso.historia_clinica.data ∧
  '\n' ∉ caso.genero.data ∧ '\n' ∉ caso.dilema_etico.data ∧
  '\n' ∉ caso.nombre_analista.data ∧ '\n' ∉ (toString caso.edad).data

instance (caso : CasoBioetico) : Decidable (casoSinSaltos caso) := by
  unfold casoSinSaltos
  infer_instance

/-- The four effective (defaulted) bullet lists of a knowledge-base entry,
concatenated in template order. -/
def vinetasDe (info : DilemaInfo) : List String :=
  info.riesgos.getD ["No especificados"] ++
  info.beneficios.getD ["No especificados"] ++
  info.alternativas.getD ["No especificadas"] ++
  info.normativas.getD ["No especificadas"]

/-! ## Helper lemmas about warning tags -/

/-- A string that extends a literal whose first `tag`-length characters are
the tag carries the tag. -/
theorem tieneEtiqueta_append_true (tag lit v : String)
    (hlen : tag.data.length ≤ lit.data.length)
    (h : lit.data.take tag.data.length = tag.data) :
    tieneEtiqueta tag (lit ++ v) = true := by
  unfold tieneEtiqueta
  rw [decide_eq_true_eq, String.data_append, List.take_append_of_le_length hlen, h]

/-- A string that extends a literal disagreeing with the tag within the
first `k` characters does not carry the tag. -/
theorem tieneEtiqueta_append_false (tag lit v : String) (k : Nat)
    (hk1 : k ≤ lit.data.length) (hk2 : k ≤ tag.data.length)
    (hne : lit.data.take k ≠ tag.data.take k) :
    tieneEtiqueta tag (lit ++ v) = false := by
  unfold tieneEtiqueta
  rw [decide_eq_false_iff_not]
  intro h
  apply hne
  have h2 := congrArg (List.take k) h
  rwa [List.take_take, Nat.min_eq_left hk2, String.data_append,
    List.take_append_of_le_length hk1] at h2

/-- Rule 3 warnings carry the internal-imbalance tag. -/
theorem etiqueta_interno_adv_interno (n : String) (d : Int) :
    tieneEtiqueta etiquetaInterno (advDesequilibrioInterno n d) = true := by
  unfold advDesequilibrioInterno
  simp only [String.append_assoc]
  exact tieneEtiqueta_append_true _ _ _ (by decide) (by decide)

/-- Rule 1 warnings do not carry the internal-imbalance tag. -/
theorem etiqueta_interno_adv_persp (n : String) :
    tieneEtiqueta etiquetaInterno (advPerspectivaOmitida n) = false := by
  unfold advPerspectivaOmitida
  simp only [String.append_assoc]
  exact tieneEtiqueta_append_false _ _ _ 3 (by decide) (by decide) (by decide)

/-- Rule 2 warnings do not carry the internal-imbalance tag. -/
theorem etiqueta_interno_adv_principio (n p : String) :
    tieneEtiqueta etiquetaInterno (advPrincipioOmitido n p) = false := by
  unfold advPrincipioOmitido
  simp only [String.append_assoc]
  exact tieneEtiqueta_append_false _ _ _ 3 (by decide) (by decide) (by decide)

/-- Rule 4 warnings do not carry the internal-imbalance tag. -/
theorem etiqueta_interno_adv_externo (a b : String) :
    tieneEtiqueta etiquetaInterno (advDesequilibrioExterno a b) = false := by
  unfold advDesequilibrioExterno
  simp only [String.append_assoc]
  exact tieneEtiqueta_append_false _ _ _ 22 (by decide) (by decide) (by decide)

/-- Rule 4 warnings carry the external-imbalance tag. -/
theorem etiqueta_externo_adv_externo (a b : String) :
    tieneEtiqueta etiquetaExterno (advDesequilibrioExterno a b) = true := by
  unfold advDesequilibrioExterno
  simp only [String.append_assoc]
  exact tieneEtiqueta_append_true _ _ _ (by decide) (by decide)

/-- Rule 1 warnings do not carry the external-imbalance tag. -/
theorem etiqueta_externo_adv_persp (n : String) :
    tieneEtiqueta etiquetaExterno (advPerspectivaOmitida n) = false := by
  unfold advPerspectivaOmitida
  simp only [String.append_assoc]
  exact tieneEtiqueta_append_false _ _ _ 3 (by decide) (by decide) (by decide)

/-- Rule 2 warnings do not carry the external-imbalance tag. -/
theorem etiqueta_externo_adv_principio (n p : String) :
    tieneEtiqueta etiquetaExterno (advPrincipioOmitido n p) = false := by
  unfold advPrincipioOmitido
  simp only [String.append_assoc]
  exact tieneEtiqueta_append_false _ _ _ 3 (by decide) (by decide) (by decide)

/-- Rule 3 warnings do not carry the external-imbalance tag. -/
theorem etiqueta_externo_adv_interno (n : String) (d : Int) :
    tieneEtiqueta etiquetaExterno (advDesequilibrioInterno n d) = false := by
  unfold advDesequilibrioInterno
  simp only [String.append_assoc]
  exact tieneEtiqueta_append_false _ _ _ 22 (by decide) (by decide) (by decide)

/-- Count of internal-imbalance warnings contributed by one stakeholder:
exactly one when rule 3 fires, none otherwise. -/
theorem countP_interno_avisos (nombre : String) (v : PrincipleScores) :
    (avisosPerspectiva nombre v).1.countP (tieneEtiqueta etiquetaInterno) =
      if 0 < v.total ∧ 4 ≤ v.maxVal - v.minVal then 1 else 0 := by
  unfold avisosPerspectiva
  have hmap : (v.items.filter (fun it => it.2 = 0)).countP
      (fun it => tieneEtiqueta etiquetaInterno (advPrincipioOmitido nombre it.1)) = 0 :=
    List.countP_eq_zero.mpr (fun a _ => by simp [etiqueta_interno_adv_principio])
  by_cases h0 : v.total = 0
  · have hlt : ¬ 0 < v.total := by omega
    simp [h0, hlt, List.countP_append, List.countP_map, List.countP_cons,
      etiqueta_interno_adv_persp, Function.comp_def, hmap]
  · by_cases h4 : 4 ≤ v.maxVal - v.minVal <;>
      by_cases hpos : 0 < v.total <;>
        simp [h0, h4, hpos, List.countP_append, List.countP_map, List.countP_cons,
          etiqueta_interno_adv_interno, Function.comp_def, hmap]

/-- Count of external-imbalance warnings contributed by one stakeholder's
rules: always zero (rule 4 runs outside the per-stakeholder loop). -/
theorem countP_externo_avisos (nombre : String) (v : PrincipleScores) :
    (avisosPerspectiva nombre v).1.countP (tieneEtiqueta etiquetaExterno) = 0 := by
  unfold avisosPerspectiva
  have hmap : (v.items.filter (fun it => it.2 = 0)).countP
      (fun it => tieneEtiqueta etiquetaExterno (advPrincipioOmitido nombre it.1)) = 0 :=
    List.countP_eq_zero.mpr (fun a _ => by simp [etiqueta_externo_adv_principio])
  by_cases h0 : v.total = 0 <;> by_cases h4 : 4 ≤ v.maxVal - v.minVal <;>
    by_cases hpos : 0 < v.total <;>
      simp [h0, h4, hpos, List.countP_append, List.countP_map, List.countP_cons,
        etiqueta_externo_adv_persp, etiqueta_externo_adv_interno,
        Function.comp_def, hmap]

/-- The per-stakeholder loop never emits an external-imbalance warning. -/
theorem countP_externo_porPerspectivas (ps : List (String × PrincipleScores)) :
    (porPerspectivas ps).1.countP (tieneEtiqueta etiquetaExterno) = 0 := by
  induction ps with
  | nil => rfl
  | cons p resto ih =>
    simp [porPerspectivas, List.countP_append, countP_externo_avisos, ih]

/-! ## Length bookkeeping for the warning/recommendation pairing -/

/-- Each stakeholder contributes equally many warnings and recommendations. -/
theorem len_avisos_eq (nombre : String) (v : PrincipleScores) :
    (avisosPerspectiva nombre v).1.length = (avisosPerspectiva nombre v).2.1.length := by
  unfold avisosPerspectiva
  by_cases h0 : v.total = 0 <;> by_cases hpos : 0 < v.total <;>
    by_cases h4 : 4 ≤ v.maxVal - v.minVal <;> simp [h0, hpos, h4]

/-- The per-stakeholder loop keeps warnings and recommendations paired. -/
theorem len_porPerspectivas_eq (ps : List (String × PrincipleScores)) :
    (porPerspectivas ps).1.length = (porPerspectivas ps).2.1.length := by
  induction ps with
  | nil => rfl
  | cons p resto ih => simp [porPerspectivas, len_avisos_eq, ih]

/-- Rule 4 keeps warnings and recommendations paired. -/
theorem len_externo_eq (ps : List (String × PrincipleScores)) :
    (externo ps).1.length = (externo ps).2.1.length := by
  unfold externo
  rcases puntajesTotales ps with _ | ⟨t1, _ | ⟨t2, resto⟩⟩
  · rfl
  · rfl
  · dsimp only
    split <;> rfl

/-! ## Claims about the bias scoring engine -/

/-- C1: on the perspectives map in which each of the three stakeholders has
all four principle scores equal to 0, `verificar_sesgo_etico` returns
severity `Crítico`, the warnings contain exactly three perspective-omitted
entries and exactly twelve principle-omitted entries, and the points total
21 = 3·3 + 12·1 (rule 2 fires independently of rule 1). -/
theorem sesgo_todo_cero_critico (m f c : PrincipleScores)
    (hm : m = cerosScores) (hf : f = cerosScores) (hc : c = cerosScores) :
    (verificar_sesgo_etico (Perspectivas.items ⟨m, f, c⟩)).2.2 = "Crítico" ∧
    (verificar_sesgo_etico (Perspectivas.items ⟨m, f, c⟩)).1.countP
      (tieneEtiqueta etiquetaPerspectivaOmitida) = 3 ∧
    (verificar_sesgo_etico (Perspectivas.items ⟨m, f, c⟩)).1.countP
      (tieneEtiqueta etiquetaPrincipioOmitido) = 12 ∧
    puntosDe (Perspectivas.items ⟨m, f, c⟩) = 21 := by
  subst hm hf hc
  decide

/-- Witness for C1 at the concrete all-zero perspectives map. -/
theorem sesgo_todo_cero_critico_testigo :
    (verificar_sesgo_etico cerosItems).2.2 = "Crítico" ∧
    (verificar_sesgo_etico cerosItems).1.countP
      (tieneEtiqueta etiquetaPerspectivaOmitida) = 3 ∧
    (verificar_sesgo_etico cerosItems).1.countP
      (tieneEtiqueta etiquetaPrincipioOmitido) = 12 ∧
    puntosDe cerosItems = 21 :=
  sesgo_todo_cero_critico cerosScores cerosScores cerosScores rfl rfl rfl

/-- C2: the severity returned by `verificar_sesgo_etico` is determined
solely by the accumulated rule points — `Crítico` iff points ≥ 5,
`Moderado` for 2 ≤ points < 5, `Bajo` for points < 2 — and on the balanced
input (every stakeholder `[3,3,3,3]`) the warnings are empty and the
severity is `Bajo`. -/
theorem severidad_por_puntos :
    (∀ ps : List (String × PrincipleScores),
      (verificar_sesgo_etico ps).2.2 = severidadDe (puntosDe ps) ∧
      (5 ≤ puntosDe ps → (verificar_sesgo_etico ps).2.2 = "Crítico") ∧
      (2 ≤ puntosDe ps → puntosDe ps < 5 →
        (verificar_sesgo_etico ps).2.2 = "Moderado") ∧
      (puntosDe ps < 2 → (verificar_sesgo_etico ps).2.2 = "Bajo")) ∧
    (verificar_sesgo_etico equilibradoItems).1 = [] ∧
    (verificar_sesgo_etico equilibradoItems).2.2 = "Bajo" := by
  refine ⟨fun ps => ?_, by decide, by decide⟩
  have base : (verificar_sesgo_etico ps).2.2 = severidadDe (puntosDe ps) := rfl
  refine ⟨base, fun h5 => ?_, fun h2 h5 => ?_, fun h2 => ?_⟩
  · rw [base]; unfold severidadDe; rw [if_pos h5]
  · rw [base]; unfold severidadDe; rw [if_neg (by omega), if_pos h2]
  · rw [base]; unfold severidadDe; rw [if_neg (by omega), if_neg (by omega)]

/-- Witness for C2: the thresholds applied at the all-zero map (21 points)
and at the balanced map (0 points). -/
theorem severidad_por_puntos_testigo :
    (verificar_sesgo_etico cerosItems).2.2 = "Crítico" ∧
    (verificar_sesgo_etico equilibradoItems).2.2 = "Bajo" :=
  ⟨(severidad_por_puntos.1 cerosItems).2.1 (by decide),
   (severidad_por_puntos.1 equilibradoItems).2.2.2 (by decide)⟩

/-- C10: for every perspectives input, `verificar_sesgo_etico` returns
equally many warnings and recommendations — every rule that appends a
warning appends exactly one matching recommendation. -/
theorem advertencias_recomendaciones_parejas
    (ps : List (String × PrincipleScores)) :
    (verificar_sesgo_etico ps).1.length = (verificar_sesgo_etico ps).2.1.length := by
  show (resultadoSesgo ps).1.length = (resultadoSesgo ps).2.1.length
  unfold resultadoSesgo
  simp [len_porPerspectivas_eq, len_externo_eq]

/-! ## Claims about the case model -/

/-- C5: the `CasoBioetico` constructor always produces a perspectives map
with all three stakeholders and all four principle keys, each score an
integer defaulting to 0 when the keyword argument is unset, and `safe_int`
absorbs `None`, empty-string and non-numeric values into the default (the
constructor is total, so it never raises). -/
theorem perspectivas_completas_por_defecto :
    (∀ (dilemasOpciones : List String) (tsAhora : Int) (kwargs : Kwargs),
      (∀ k, k ∈ clavesPerspectiva → kwargs k = Option.none) →
      (mkCasoBioetico dilemasOpciones tsAhora kwargs).perspectivas =
        ⟨cerosScores, cerosScores, cerosScores⟩) ∧
    (∀ (v : PyValue) (d : Int),
      (v = PyValue.none ∨ v = PyValue.str "" ∨
        ∃ s, v = PyValue.str s ∧ pyToInt s = Option.none) →
      safe_int v d = d) := by
  constructor
  · intro dOps ts kw h
    have h1 : kw "nivel_autonomia_medico" = Option.none := h _ (by decide)
    have h2 : kw "nivel_beneficencia_medico" = Option.none := h _ (by decide)
    have h3 : kw "nivel_no_maleficencia_medico" = Option.none := h _ (by decide)
    have h4 : kw "nivel_justicia_medico" = Option.none := h _ (by decide)
    have h5 : kw "nivel_autonomia_familia" = Option.none := h _ (by decide)
    have h6 : kw "nivel_beneficencia_familia" = Option.none := h _ (by decide)
    have h7 : kw "nivel_no_maleficencia_familia" = Option.none := h _ (by decide)
    have h8 : kw "nivel_justicia_familia" = Option.none := h _ (by decide)
    have h9 : kw "nivel_autonomia_comite" = Option.none := h _ (by decide)
    have h10 : kw "nivel_beneficencia_comite" = Option.none := h _ (by decide)
    have h11 : kw "nivel_no_maleficencia_comite" = Option.none := h _ (by decide)
    have h12 : kw "nivel_justicia_comite" = Option.none := h _ (by decide)
    simp [mkCasoBioetico, extractPerspective, pyGet, cerosScores, safe_int,
      h1, h2, h3, h4, h5, h6, h7, h8, h9, h10, h11, h12]
  · rintro v d (rfl | rfl | ⟨s, rfl, hs⟩)
    · rfl
    · simp [safe_int]
    · by_cases hse : s = ""
      · simp [safe_int, hse]
      · simp [safe_int, hse, hs]

/-- Witness for C5: all keyword arguments absent, and a non-numeric string. -/
theorem perspectivas_completas_por_defecto_testigo :
    (mkCasoBioetico [] 0 (fun _ => Option.none)).perspectivas =
      ⟨cerosScores, cerosScores, cerosScores⟩ ∧
    safe_int (PyValue.str "abc") 7 = 7 :=
  ⟨perspectivas_completas_por_defecto.1 [] 0 (fun _ => Option.none) (fun _ _ => rfl),
   perspectivas_completas_por_defecto.2 (PyValue.str "abc") 7
     (Or.inr (Or.inr ⟨"abc", rfl, by decide⟩))⟩

/-! ## Claims about the report assembler -/

/-- C6: assembling the report twice from identical inputs (same case, same
suggested dilemma, empty chat history, same chart specs, same assessment)
yields field-for-field identical reports apart from the timestamp field. -/
theorem reporte_identico_salvo_fecha (ahora1 ahora2 : String)
    (caso : CasoBioetico) (dil : Option String) (charts : ChartJsons)
    (analisis : AnalisisEtico) :
    generar_reporte_completo ahora1 caso dil [] charts analisis =
      { generar_reporte_completo ahora2 caso dil [] charts analisis with
        fechaAnalisis := ahora1 } := rfl

/-- C7: the assembled report's patient summary is
`Paciente {nombre}, {edad} años, género {genero}, condición {condicion}.`
with the neonatal clause appended exactly when the gestation weeks are
positive, and the AI-narrative field of the assembled report is empty (the
assembler takes no AI input at all). -/
theorem resumen_paciente_formato (ahora : String) (caso : CasoBioetico)
    (dil : Option String) (hist : List ChatMessage) (charts : ChartJsons)
    (analisis : AnalisisEtico) :
    (0 < caso.semanas_gestacion →
      (generar_reporte_completo ahora caso dil hist charts analisis).resumenPaciente =
        "Paciente " ++ caso.nombre_paciente ++ ", " ++ toString caso.edad ++
          " años, género " ++ caso.genero ++ ", condición " ++ caso.condicion ++
          "." ++ " Neonato de " ++ toString caso.semanas_gestacion ++ " sem.") ∧
    (caso.semanas_gestacion ≤ 0 →
      (generar_reporte_completo ahora caso dil hist charts analisis).resumenPaciente =
        "Paciente " ++ caso.nombre_paciente ++ ", " ++ toString caso.edad ++
          " años, género " ++ caso.genero ++ ", condición " ++ caso.condicion ++ ".") ∧
    (generar_reporte_completo ahora caso dil hist charts analisis).analisisDeliberativoIA
      = "" := by
  refine ⟨fun h => ?_, fun h => ?_, rfl⟩
  · show resumenPacienteDe caso = _
    simp only [resumenPacienteDe, if_pos h, String.append_assoc]
  · show resumenPacienteDe caso = _
    have hn : ¬ 0 < caso.semanas_gestacion := by omega
    simp only [resumenPacienteDe, if_neg hn]

/-- Witness for C7 at a neonatal and a non-neonatal concrete case. -/
theorem resumen_paciente_formato_testigo :
    (generar_reporte_completo "t" casoNeonato Option.none [] chartsVacios
      analisisVacio).resumenPaciente =
      "Paciente Ana Pérez, 44 años, género Femenino, condición Neonato. Neonato de 32 sem." ∧
    (generar_reporte_completo "t" casoLimpio Option.none [] chartsVacios
      analisisVacio).resumenPaciente =
      "Paciente Ana Pérez, 44 años, género Femenino, condición Crítico." :=
  ⟨((resumen_paciente_formato "t" casoNeonato Option.none [] chartsVacios
      analisisVacio).1 (by decide)).trans (by decide),
   ((resumen_paciente_formato "t" casoLimpio Option.none [] chartsVacios
      analisisVacio).2.1 (by decide)).trans (by decide)⟩

/-! ## Claim about the submission guard -/

/-- C9: submitting the case form with a blank (or missing) case id aborts
with the user-visible validation error and writes no partial state: the
session is unchanged, no case model or report is built into the session,
and nothing is persisted to the document store. -/
theorem envio_sin_id_aborta (dilemasData : List (String × DilemaInfo))
    (ahora hoy : String) (tsAhora : Int) (analista_email : String)
    (user_uid : Option String) (dilema_sugerido : Option String)
    (chart_jsons : ChartJsons) (sesion : Sesion) (form : DatosFormulario)
    (h : pyStrip form.historia_clinica = "") :
    manejarEnvio dilemasData ahora hoy tsAhora analista_email user_uid
        dilema_sugerido chart_jsons sesion form =
      (sesion, [],
       ["El campo \x27Nº Historia Clínica / ID del Caso\x27 es obligatorio."]) := by
  unfold manejarEnvio
  rw [if_pos h]

/-- Witness for C9: a whitespace-only case id aborts the submission. -/
theorem envio_sin_id_aborta_testigo :
    manejarEnvio [] "t" "d" 0 "a@b.c" Option.none Option.none chartsVacios
        ⟨Option.none, Option.none, [], Option.none⟩ formEnBlanco =
      (⟨Option.none, Option.none, [], Option.none⟩, [],
       ["El campo \x27Nº Historia Clínica / ID del Caso\x27 es obligatorio."]) :=
  envio_sin_id_aborta [] "t" "d" 0 "a@b.c" Option.none Option.none chartsVacios
    ⟨Option.none, Option.none, [], Option.none⟩ formEnBlanco (by decide)

/-- Rule 4 contributes no internal-imbalance warning. -/
theorem countP_interno_externo (ps : List (String × PrincipleScores)) :
    (externo ps).1.countP (tieneEtiqueta etiquetaInterno) = 0 := by
  unfold externo
  rcases puntajesTotales ps with _ | ⟨t1, _ | ⟨t2, resto⟩⟩
  · rfl
  · rfl
  · dsimp only
    split <;> simp [etiqueta_interno_adv_externo]

/-- When at least two stakeholders are present, rule 4 fires exactly on the
threshold condition, naming the extreme stakeholders. -/
theorem externo_dispara (p1 p2 : String × PrincipleScores)
    (rest : List (String × PrincipleScores))
    (h8 : 8 ≤ (parMax (p1 :: p2 :: rest)).2 - (parMin (p1 :: p2 :: rest)).2) :
    externo (p1 :: p2 :: rest) =
      ([advDesequilibrioExterno (parMax (p1 :: p2 :: rest)).1
          (parMin (p1 :: p2 :: rest)).1],
       [recDesequilibrioExterno], 2) := by
  unfold parMax parMin puntajesTotales at h8
  simp only [List.map_cons] at h8
  unfold externo puntajesTotales parMax parMin
  simp only [List.map_cons]
  rw [if_pos h8]
  unfold puntajesTotales
  simp only [List.map_cons]

/-- C3: with at least two stakeholders present and extreme totals differing
by at least 8, `verificar_sesgo_etico` appends exactly one external-
imbalance warning naming the max and min stakeholders and adds +2 points;
on `{medico 5555, familia 0000, comite 3333}` the rules accumulate
3 + 4 + 2 = 9 points and the severity is `Crítico`. -/
theorem desequilibrio_externo_regla :
    (∀ ps : List (String × PrincipleScores), 2 ≤ ps.length →
      8 ≤ (parMax ps).2 - (parMin ps).2 →
      (verificar_sesgo_etico ps).1 =
        (porPerspectivas ps).1 ++
          [advDesequilibrioExterno (parMax ps).1 (parMin ps).1] ∧
      puntosDe ps = (porPerspectivas ps).2.2 + 2 ∧
      (verificar_sesgo_etico ps).1.countP (tieneEtiqueta etiquetaExterno) = 1) ∧
    (puntosDe dominanciaItems = 9 ∧
     (verificar_sesgo_etico dominanciaItems).2.2 = "Crítico") := by
  refine ⟨fun ps h2 h8 => ?_, by decide, by decide⟩
  rcases ps with _ | ⟨p1, _ | ⟨p2, rest⟩⟩
  · simp at h2
  · simp at h2
  · refine ⟨?_, ?_, ?_⟩
    · show (porPerspectivas _).1 ++ (externo _).1 = _
      rw [externo_dispara p1 p2 rest h8]
    · show (porPerspectivas _).2.2 + (externo _).2.2 = _
      rw [externo_dispara p1 p2 rest h8]
    · show ((porPerspectivas _).1 ++ (externo _).1).countP _ = 1
      rw [externo_dispara p1 p2 rest h8]
      simp [List.countP_append, List.countP_cons, countP_externo_porPerspectivas,
        etiqueta_externo_adv_externo]

/-- Witness for C3 at the dominance example (totals 20, 0, 12). -/
theorem desequilibrio_externo_regla_testigo :
    (verificar_sesgo_etico dominanciaItems).1 =
      (porPerspectivas dominanciaItems).1 ++
        [advDesequilibrioExterno (parMax dominanciaItems).1
          (parMin dominanciaItems).1] ∧
    puntosDe dominanciaItems = (porPerspectivas dominanciaItems).2.2 + 2 ∧
    (verificar_sesgo_etico dominanciaItems).1.countP
      (tieneEtiqueta etiquetaExterno) = 1 :=
  desequilibrio_externo_regla.1 dominanciaItems (by decide) (by decide)

/-- C4: a stakeholder with positive total and spread ≥ 4 contributes exactly
one internal-imbalance warning and +2 points on top of its principle-
omission points; across the three stakeholders the full function emits one
such warning per stakeholder meeting the condition; on `[5,5,5,1]` the rule
fires (+2) with no principle-omission warning (no score is 0). -/
theorem desequilibrio_interno_regla :
    (∀ (nombre : String) (v : PrincipleScores),
      0 < v.total → 4 ≤ v.maxVal - v.minVal →
      (avisosPerspectiva nombre v).1.countP (tieneEtiqueta etiquetaInterno) = 1 ∧
      (avisosPerspectiva nombre v).2.2 =
        ((v.items.filter (fun it => it.2 = 0)).length : Int) + 2) ∧
    (∀ P : Perspectivas,
      (verificar_sesgo_etico P.items).1.countP (tieneEtiqueta etiquetaInterno) =
        (if 0 < P.medico.total ∧ 4 ≤ P.medico.maxVal - P.medico.minVal
          then 1 else 0) +
        (if 0 < P.familia.total ∧ 4 ≤ P.familia.maxVal - P.familia.minVal
          then 1 else 0) +
        (if 0 < P.comite.total ∧ 4 ≤ P.comite.maxVal - P.comite.minVal
          then 1 else 0)) ∧
    ((avisosPerspectiva "medico" ⟨5, 5, 5, 1⟩).1.countP
      (tieneEtiqueta etiquetaInterno) = 1 ∧
     (avisosPerspectiva "medico" ⟨5, 5, 5, 1⟩).1.countP
      (tieneEtiqueta etiquetaPrincipioOmitido) = 0 ∧
     (avisosPerspectiva "medico" ⟨5, 5, 5, 1⟩).2.2 = 2) := by
  refine ⟨fun nombre v hpos h4 => ⟨?_, ?_⟩, fun P => ?_, by decide⟩
  · rw [countP_interno_avisos, if_pos ⟨hpos, h4⟩]
  · have h0 : ¬ v.total = 0 := by omega
    unfold avisosPerspectiva
    simp only [h0, if_false, if_pos hpos, if_pos h4, List.length_nil]
    omega
  · show ((porPerspectivas P.items).1 ++ (externo P.items).1).countP _ = _
    simp [List.countP_append, countP_interno_externo, Perspectivas.items,
      porPerspectivas, countP_interno_avisos]
    omega

/-- Witness for C4 at the stakeholder scores `[5,0,1,4]` (total 10,
spread 5, one zero score). -/
theorem desequilibrio_interno_regla_testigo :
    (avisosPerspectiva "familia" ⟨5, 0, 1, 4⟩).1.countP
      (tieneEtiqueta etiquetaInterno) = 1 ∧
    (avisosPerspectiva "familia" ⟨5, 0, 1, 4⟩).2.2 =
      (((PrincipleScores.items ⟨5, 0, 1, 4⟩).filter
        (fun it => it.2 = 0)).length : Int) + 2 :=
  desequilibrio_interno_regla.1 "familia" ⟨5, 0, 1, 4⟩ (by decide) (by decide)

/-! ## Line arithmetic for the consent template -/

/-- Splitting a newline-free character list yields a single line. -/
theorem dividirLineasNucleo_sin_salto (cs : List Char) (acc : List Char)
    (h : '\n' ∉ cs) :
    dividirLineasNucleo cs acc = [String.mk (acc.reverse ++ cs)] := by
  induction cs generalizing acc with
  | nil => simp [dividirLineasNucleo]
  | cons c cs ih =>
    have hc : ¬ c = '\n' := fun hx => h (hx ▸ List.mem_cons_self c cs)
    rw [dividirLineasNucleo, if_neg hc,
      ih _ (fun hx => h (List.mem_cons_of_mem c hx))]
    simp

/-- Splitting cuts at the first newline after a newline-free prefix. -/
theorem dividirLineasNucleo_corte (cs rest acc : List Char) (h : '\n' ∉ cs) :
    dividirLineasNucleo (cs ++ '\n' :: rest) acc =
      String.mk (acc.reverse ++ cs) :: dividirLineasNucleo rest [] := by
  induction cs generalizing acc with
  | nil =>
    rw [List.nil_append, dividirLineasNucleo, if_pos rfl]
    simp
  | cons c cs ih =>
    have hc : ¬ c = '\n' := fun hx => h (hx ▸ List.mem_cons_self c cs)
    rw [List.cons_append, dividirLineasNucleo, if_neg hc,
      ih _ (fun hx => h (List.mem_cons_of_mem c hx))]
    simp

/-- Rebuilding a string from its characters is the identity. -/
theorem cadena_mk_datos (s : String) : String.mk s.data = s := rfl

/-- `dividirLineas` is a left inverse of joining newline-free lines with
newlines. -/
theorem dividirLineas_unirCon (ls : List String)
    (h : ∀ l ∈ ls, '\n' ∉ l.data) (hne : ls ≠ []) :
    dividirLineas (unirCon "\n" ls) = ls := by
  induction ls with
  | nil => exact absurd rfl hne
  | cons l ls ih =>
    cases ls with
    | nil =>
      show dividirLineasNucleo l.data [] = [l]
      rw [dividirLineasNucleo_sin_salto _ _ (h l (List.mem_cons_self _ _))]
      simp [cadena_mk_datos]
    | cons l2 ls2 =>
      rw [unirCon]
      unfold dividirLineas
      have hdata : ((l ++ "\n") ++ unirCon "\n" (l2 :: ls2)).data =
          l.data ++ '\n' :: (unirCon "\n" (l2 :: ls2)).data := by
        have hn : ("\n" : String).data = ['\n'] := rfl
        simp [String.data_append, hn]
      rw [hdata, dividirLineasNucleo_corte _ _ _ (h l (List.mem_cons_self _ _))]
      have ih2 := ih (fun x hx => h x (List.mem_cons_of_mem l hx)) (by simp)
      unfold dividirLineas at ih2
      rw [ih2]
      simp [cadena_mk_datos]

/-- A bullet line starts with dash-space. -/
theorem take2_vineta (r : String) : (vineta r).data.take 2 = ['-', ' '] := rfl

/-- The first two characters of an extension of a two-character prefix. -/
theorem take2_append (pre su : String) (h : 2 ≤ pre.data.length) :
    (pre ++ su).data.take 2 = pre.data.take 2 := by
  rw [String.data_append, List.take_append_of_le_length h]

/-- A string not starting with dash-space is no bullet line. -/
theorem vineta_ne_lit (l r : String) (h : l.data.take 2 ≠ ['-', ' ']) :
    l ≠ vineta r :=
  fun he => h (by rw [he]; exact take2_vineta r)

/-- An extension of a prefix not starting with dash-space is no bullet line. -/
theorem vineta_ne_pre (pre su r : String) (h2 : 2 ≤ pre.data.length)
    (h : pre.data.take 2 ≠ ['-', ' ']) : pre ++ su ≠ vineta r :=
  vineta_ne_lit _ _ (by rw [take2_append pre su h2]; exact h)

/-- Bullet lines determine their bullets. -/
theorem vineta_inj (b r : String) : vineta b = vineta r ↔ b = r := by
  constructor
  · intro h
    have hd := congrArg String.data h
    simp only [vineta, String.data_append] at hd
    exact String.ext (List.append_cancel_left hd)
  · intro h
    rw [h]

/-- Under newline-free case fields, every header line is newline-free. -/
theorem cabecera_sin_salto (hoy : String) (caso : CasoBioetico)
    (hcaso : casoSinSaltos caso) (hhoy : '\n' ∉ hoy.data) :
    ∀ l ∈ lineasCabecera hoy caso, '\n' ∉ l.data := by
  obtain ⟨hnp, hhc, hg, hd, hna, hed⟩ := hcaso
  intro l hl
  simp only [lineasCabecera, List.mem_cons, List.not_mem_nil, or_false] at hl
  rcases hl with rfl|rfl|rfl|rfl|rfl|rfl|rfl|rfl|rfl|rfl|rfl|rfl|rfl|rfl|rfl|rfl
  · decide
  · decide
  · simp only [String.data_append, List.mem_append, not_or]
    exact ⟨by decide, hhoy⟩
  · simp only [String.data_append, List.mem_append, not_or]
    exact ⟨by decide, hhc⟩
  · decide
  · decide
  · decide
  · simp only [String.data_append, List.mem_append, not_or]
    exact ⟨by decide, hnp⟩
  · simp only [String.data_append, List.mem_append, not_or]
    exact ⟨by decide, hed, by decide⟩
  · simp only [String.data_append, List.mem_append, not_or]
    exact ⟨by decide, hg⟩
  · simp only [String.data_append, List.mem_append, not_or]
    exact ⟨by decide, hd⟩
  · decide
  · decide
  · decide
  · simp only [String.data_append, List.mem_append, not_or]
    exact ⟨by decide, hd, by decide⟩
  · decide

/-- Under newline-free case fields, every footer line is newline-free. -/
theorem pie_sin_salto (caso : CasoBioetico) (hcaso : casoSinSaltos caso) :
    ∀ l ∈ lineasPie caso, '\n' ∉ l.data := by
  obtain ⟨hnp, hhc, hg, hd, hna, hed⟩ := hcaso
  intro l hl
  simp only [lineasPie, List.mem_cons, List.not_mem_nil, or_false] at hl
  rcases hl with rfl|rfl|rfl|rfl|rfl|rfl|rfl|rfl|rfl|rfl|rfl|rfl
  · decide
  · decide
  · decide
  · decide
  · decide
  · decide
  · decide
  · decide
  · decide
  · simp only [String.data_append, List.mem_append, not_or]
    exact ⟨by decide, hna⟩
  · decide
  · decide

/-- Bullet lines over newline-free bullets are newline-free. -/
theorem vinetas_sin_salto (xs : List String)
    (hx : ∀ b ∈ xs, '\n' ∉ b.data) :
    ∀ l ∈ xs.map vineta, '\n' ∉ l.data := by
  intro l hl
  rcases List.mem_map.mp hl with ⟨b, hb, rfl⟩
  simp only [vineta, String.data_append, List.mem_append, not_or]
  exact ⟨by decide, hx b hb⟩

/-- All lines of the filled consent template are newline-free, given
newline-free case fields, date and bullets. -/
theorem lineas_consent_sin_salto (hoy : String) (caso : CasoBioetico)
    (rs bs als ns : List String) (hcaso : casoSinSaltos caso)
    (hhoy : '\n' ∉ hoy.data)
    (hb : ∀ b ∈ rs ++ bs ++ als ++ ns, '\n' ∉ b.data) :
    ∀ l ∈ lineasConsentimiento hoy caso rs bs als ns, '\n' ∉ l.data := by
  intro l hl
  simp only [lineasConsentimiento, List.mem_append] at hl
  rcases hl with ((((((((h|h)|h)|h)|h)|h)|h)|h)|h)
  · exact cabecera_sin_salto hoy caso hcaso hhoy l h
  · exact vinetas_sin_salto rs (fun b hb2 => hb b (by simp [hb2])) l h
  · simp only [List.mem_cons, List.not_mem_nil, or_false] at h
    subst h
    decide
  · exact vinetas_sin_salto bs (fun b hb2 => hb b (by simp [hb2])) l h
  · simp only [List.mem_cons, List.not_mem_nil, or_false] at h
    subst h
    decide
  · exact vinetas_sin_salto als (fun b hb2 => hb b (by simp [hb2])) l h
  · simp only [List.mem_cons, List.not_mem_nil, or_false] at h
    rcases h with rfl | rfl
    · decide
    · decide
  · exact vinetas_sin_salto ns (fun b hb2 => hb b (by simp [hb2])) l h
  · exact pie_sin_salto caso hcaso l h

/-- No header line is a bullet line. -/
theorem countP_vineta_cabecera (hoy : String) (caso : CasoBioetico)
    (r : String) :
    (lineasCabecera hoy caso).countP (fun l => decide (l = vineta r)) = 0 := by
  rw [List.countP_eq_zero]
  intro a ha
  simp only [lineasCabecera, List.mem_cons, List.not_mem_nil, or_false] at ha
  simp only [decide_eq_true_eq]
  rcases ha with rfl|rfl|rfl|rfl|rfl|rfl|rfl|rfl|rfl|rfl|rfl|rfl|rfl|rfl|rfl|rfl
  · exact vineta_ne_lit _ _ (by decide)
  · exact vineta_ne_lit _ _ (by decide)
  · exact vineta_ne_pre _ _ _ (by decide) (by decide)
  · exact vineta_ne_pre _ _ _ (by decide) (by decide)
  · exact vineta_ne_lit _ _ (by decide)
  · exact vineta_ne_lit _ _ (by decide)
  · exact vineta_ne_lit _ _ (by decide)
  · exact vineta_ne_pre _ _ _ (by decide) (by decide)
  · exact vineta_ne_pre _ _ _ (by decide) (by decide)
  · exact vineta_ne_pre _ _ _ (by decide) (by decide)
  · exact vineta_ne_pre _ _ _ (by decide) (by decide)
  · exact vineta_ne_lit _ _ (by decide)
  · exact vineta_ne_lit _ _ (by decide)
  · exact vineta_ne_lit _ _ (by decide)
  · exact vineta_ne_pre _ _ _ (by decide) (by decide)
  · exact vineta_ne_lit _ _ (by decide)

/-- No footer line is a bullet line. -/
theorem countP_vineta_pie (caso : CasoBioetico) (r : String) :
    (lineasPie caso).countP (fun l => decide (l = vineta r)) = 0 := by
  rw [List.countP_eq_zero]
  intro a ha
  simp only [lineasPie, List.mem_cons, List.not_mem_nil, or_false] at ha
  simp only [decide_eq_true_eq]
  rcases ha with rfl|rfl|rfl|rfl|rfl|rfl|rfl|rfl|rfl|rfl|rfl|rfl
  · exact vineta_ne_lit _ _ (by decide)
  · exact vineta_ne_lit _ _ (by decide)
  · exact vineta_ne_lit _ _ (by decide)
  · exact vineta_ne_lit _ _ (by decide)
  · exact vineta_ne_lit _ _ (by decide)
  · exact vineta_ne_lit _ _ (by decide)
  · exact vineta_ne_lit _ _ (by decide)
  · exact vineta_ne_lit _ _ (by decide)
  · exact vineta_ne_lit _ _ (by decide)
  · exact vineta_ne_pre _ _ _ (by decide) (by decide)
  · exact vineta_ne_lit _ _ (by decide)
  · exact vineta_ne_lit _ _ (by decide)

/-- Counting a bullet line among rendered bullets counts the bullet. -/
theorem countP_map_vineta (xs : List String) (r : String) :
    (xs.map vineta).countP (fun l => decide (l = vineta r)) =
      xs.countP (fun b => decide (b = r)) := by
  rw [List.countP_map]
  have hfun : ((fun l => decide (l = vineta r)) ∘ vineta) =
      (fun b => decide (b = r)) := by
    funext b
    simp only [Function.comp_apply]
    exact decide_eq_decide.mpr (vineta_inj b r)
  rw [hfun]

/-- A section-title line is no bullet line. -/
theorem countP_titulo (t r : String) (h : t.data.take 2 ≠ ['-', ' ']) :
    List.countP (fun l => decide (l = vineta r)) [t] = 0 := by
  have ht := vineta_ne_lit t r h
  simp [List.countP_cons, ht]

/-- The number of `- r` lines of the consent text equals the number of
occurrences of `r` among the four (defaulted) bullet lists. -/
theorem cuentaVineta_texto (hoy : String) (caso : CasoBioetico)
    (rs bs als ns : List String) (hcaso : casoSinSaltos caso)
    (hhoy : '\n' ∉ hoy.data)
    (hb : ∀ b ∈ rs ++ bs ++ als ++ ns, '\n' ∉ b.data) (r : String) :
    cuentaVineta r (textoConsentimientoDe hoy caso rs bs als ns) =
      (rs ++ bs ++ als ++ ns).countP (fun b => decide (b = r)) := by
  unfold cuentaVineta textoConsentimientoDe
  rw [dividirLineas_unirCon _
    (lineas_consent_sin_salto hoy caso rs bs als ns hcaso hhoy hb)
    (by simp [lineasConsentimiento, lineasCabecera])]
  simp only [lineasConsentimiento, List.countP_append]
  rw [countP_vineta_cabecera, countP_vineta_pie, countP_map_vineta,
    countP_map_vineta, countP_map_vineta, countP_map_vineta,
    countP_titulo _ _ (by decide), countP_titulo _ _ (by decide)]
  have h4 : List.countP (fun l => decide (l = vineta r))
      ["4. MARCO NORMATIVO Y ÉTICO:",
       "Esta deliberación se enmarca en las siguientes normativas y principios:"]
      = 0 := by
    have a1 := vineta_ne_lit "4. MARCO NORMATIVO Y ÉTICO:" r (by decide)
    have a2 := vineta_ne_lit
      "Esta deliberación se enmarca en las siguientes normativas y principios:" r
      (by decide)
    simp [List.countP_cons, a1, a2]
  rw [h4]
  omega

/-! ## Claims about the consent text generator -/

set_option maxRecDepth 8192 in
/-- C8 counterexample: the claim as stated fails — for a case whose
selected category is present in the knowledge base but whose patient name
contains a newline followed by a bullet line, a configured risk bullet
appears twice in the generated text, not exactly once. -/
theorem consentimiento_vinetas_contraejemplo :
    buscarDilema dilemasDataSpec casoInyectado.dilema_etico =
      some dilemaCompletoSpec ∧
    dilemaCompletoSpec.riesgos =
      some ["Riesgo de infección", "Riesgo de sangrado"] ∧
    cuentaVineta "Riesgo de infección"
      (generar_texto_consentimiento dilemasDataSpec "2026-01-01" casoInyectado)
      = 2 :=
  ⟨by decide, rfl, by decide⟩

/-- C8 (amended): for every case with newline-free text fields and date
stamp, if the selected dilemma category is present in the knowledge base
then the generated text contains each configured bullet line exactly once;
each list absent from the category's entry degrades to its single
placeholder bullet, an absent category degrades to all four placeholders,
and the generator is total so it never raises. -/
theorem consentimiento_vinetas_unicas (hoy : String) (caso : CasoBioetico)
    (hcaso : casoSinSaltos caso) (hhoy : '\n' ∉ hoy.data) :
    (caso.dilema_etico = "Limitación del esfuerzo terapéutico" →
      ∀ r ∈ vinetasDe dilemaCompletoSpec,
        cuentaVineta r
          (generar_texto_consentimiento dilemasDataSpec hoy caso) = 1) ∧
    (caso.dilema_etico = "Rechazo de tratamiento" →
      cuentaVineta "Resolución 8430 de 1993"
        (generar_texto_consentimiento dilemasDataSpec hoy caso) = 1 ∧
      generar_texto_consentimiento dilemasDataSpec hoy caso =
        textoConsentimientoDe hoy caso ["No especificados"] ["No especificados"]
          ["No especificadas"] ["Resolución 8430 de 1993"]) ∧
    (buscarDilema dilemasDataSpec caso.dilema_etico = Option.none →
      generar_texto_consentimiento dilemasDataSpec hoy caso =
        textoConsentimientoDe hoy caso ["No especificados"] ["No especificados"]
          ["No especificadas"] ["No especificadas"]) := by
  refine ⟨fun hd r hr => ?_, fun hd => ⟨?_, ?_⟩, fun hn => ?_⟩
  · have hb : buscarDilema dilemasDataSpec caso.dilema_etico =
        some dilemaCompletoSpec := by rw [hd]; decide
    simp only [generar_texto_consentimiento, hb, Option.getD_some,
      dilemaCompletoSpec]
    rw [cuentaVineta_texto hoy caso _ _ _ _ hcaso hhoy (by decide)]
    simp only [vinetasDe, dilemaCompletoSpec, Option.getD_some,
      List.cons_append, List.nil_append, List.mem_cons, List.not_mem_nil,
      or_false] at hr
    rcases hr with rfl | rfl | rfl | rfl | rfl
    · decide
    · decide
    · decide
    · decide
    · decide
  · have hb : buscarDilema dilemasDataSpec caso.dilema_etico =
        some dilemaParcialSpec := by rw [hd]; decide
    simp only [generar_texto_consentimiento, hb, Option.getD_some,
      dilemaParcialSpec, Option.getD_none]
    rw [cuentaVineta_texto hoy caso _ _ _ _ hcaso hhoy (by decide)]
    decide
  · have hb : buscarDilema dilemasDataSpec caso.dilema_etico =
        some dilemaParcialSpec := by rw [hd]; decide
    simp only [generar_texto_consentimiento, hb, Option.getD_some,
      dilemaParcialSpec, Option.getD_none]
  · simp only [generar_texto_consentimiento, hn, Option.getD_none, dilemaVacio]

/-- Witness for C8 at a concrete newline-free case selecting the
fully-configured category. -/
theorem consentimiento_vinetas_unicas_testigo :
    cuentaVineta "Ley 23 de 1981"
      (generar_texto_consentimiento dilemasDataSpec "2026-01-01" casoLimpio)
      = 1 :=
  (consentimiento_vinetas_unicas "2026-01-01" casoLimpio (by decide)
    (by decide)).1 rfl "Ley 23 de 1981" (by decide)
